import Mathlib

/-
  Verification development for the macro recorder/player program
  (src/main.py): event codec (serialize_event / deserialize_event),
  macro recording (MacroRecorder), and macro playback (MacroPlayer.play,
  MainWindow.play_macro), shallowly embedded in Lean.

  Conventions:
  * JSON values of the persisted macro file are modelled by `Json`.
  * Python dynamic values appearing as event payloads are modelled by
    `EvData` (the shapes this program constructs and consumes).
  * Python exceptions are modelled by `PyErr`; functions that can raise
    return `Except PyErr _`, and methods that mutate state before raising
    return the mutated state together with an `Option PyErr`.
  * The external pynput library (keyboard.Key, keyboard.KeyCode,
    mouse.Button, listeners and controllers) is not part of the
    repository; its objects and their Python equality are modelled by
    `PyKey`, `keyNames`, `buttonNames`, `pyKeyEq` from its documented
    behaviour, as the spec treats it as an external OS-input collaborator.
-/

namespace MacroProgram

/-- JSON values as stored in a persisted macro file (a persisted macro is
a top-level array of event objects, modelled as a List Json outside this
type; no code path of the embedded functions produces or consumes a
nested JSON array). -/
inductive Json where
  | null
  | bool (b : Bool)
  | num (q : Rat)
  | str (s : String)
  | obj (fs : List (String × Json))

mutual

/-- Structural equality test on Json values (Python equality of the
corresponding loaded values). -/
def Json.beq : Json → Json → Bool
  | .null, .null => true
  | .bool a, .bool b => a = b
  | .num a, .num b => a = b
  | .str a, .str b => a = b
  | .obj fs, .obj gs => Json.beqFields fs gs
  | _, _ => false

/-- Structural equality test on Json object field lists. -/
def Json.beqFields : List (String × Json) → List (String × Json) → Bool
  | [], [] => true
  | (a, v) :: fs, (b, w) :: gs => a = b && Json.beq v w && Json.beqFields fs gs
  | _, _ => false

end

mutual

theorem Json.beq_refl : (j : Json) → Json.beq j j = true
  | .null => rfl
  | .bool b => by simp [Json.beq]
  | .num q => by simp [Json.beq]
  | .str s => by simp [Json.beq]
  | .obj fs => by simp [Json.beq, Json.beqFields_refl fs]

theorem Json.beqFields_refl : (fs : List (String × Json)) → Json.beqFields fs fs = true
  | [] => rfl
  | (a, v) :: fs => by
    simp [Json.beqFields, Json.beq_refl v, Json.beqFields_refl fs]

end

/-- Dictionary field access, first binding wins (Python dict keys are unique). -/
def getField (k : String) : List (String × Json) → Option Json
  | [] => none
  | (a, v) :: rest => if a = k then some v else getField k rest

/-- Models the external pynput key objects: keyboard.KeyCode carries an
optional virtual key code and an optional character (the character is kept
as the Json value written to / read from the file), while keyboard.Key is
an enum member identified by its name. -/
inductive PyKey where
  | keyCode (vk : Option Int) (ch : Option Json)
  | special (name : String)

/-- Models the names of the external pynput keyboard.Key enum members
(the set of symbolic keys for which getattr on keyboard.Key succeeds). -/
def keyNames : List String :=
  ["alt", "alt_gr", "alt_l", "alt_r", "backspace", "caps_lock",
   "cmd", "cmd_l", "cmd_r", "ctrl", "ctrl_l", "ctrl_r", "delete",
   "down", "end", "enter", "esc",
   "f1", "f2", "f3", "f4", "f5", "f6", "f7", "f8", "f9", "f10",
   "f11", "f12", "f13", "f14", "f15", "f16", "f17", "f18", "f19", "f20",
   "home", "insert", "left", "media_next", "media_play_pause",
   "media_previous", "media_volume_down", "media_volume_mute",
   "media_volume_up", "menu", "num_lock", "page_down", "page_up",
   "pause", "print_screen", "right", "scroll_lock", "shift", "shift_l",
   "shift_r", "space", "tab", "up"]

/-- Models the names of the external pynput mouse.Button enum members. -/
def buttonNames : List String := ["unknown", "left", "middle", "right"]

/-- Models Python equality on pynput key objects: two KeyCodes both
carrying a character compare by character, otherwise by virtual key code;
a Key enum member equals only the member with the same name; a KeyCode
never equals a Key. -/
def pyKeyEq : PyKey → PyKey → Bool
  | .keyCode v₁ c₁, .keyCode v₂ c₂ =>
    match c₁, c₂ with
    | some a, some b => Json.beq a b
    | _, _ => decide (v₁ = v₂)
  | .special a, .special b => decide (a = b)
  | _, _ => false

/-- Event payloads as this program constructs and consumes them:
the Python objects stored in the third component of an event tuple. -/
inductive EvData where
  | key (k : PyKey)
  | pos (x y : Json)
  | click (x y : Json) (button : String) (pressed : Json)
  | scroll (x y dx dy : Json)
  | raw (j : Json)

/-- An event tuple (event_time, event_type, event_data). -/
abbrev PyEvent : Type := Rat × String × EvData

/-- Python equality on event payloads: keys compare by pynput key
equality, pynput Button enum members by name, tuples componentwise,
values of different Python types are unequal. -/
def pyDataEq : EvData → EvData → Bool
  | .key k, .key k2 => pyKeyEq k k2
  | .pos x y, .pos x2 y2 => Json.beq x x2 && Json.beq y y2
  | .click x y b p, .click x2 y2 b2 p2 =>
    Json.beq x x2 && Json.beq y y2 && decide (b = b2) && Json.beq p p2
  | .scroll x y dx dy, .scroll x2 y2 dx2 dy2 =>
    Json.beq x x2 && Json.beq y y2 && Json.beq dx dx2 && Json.beq dy dy2
  | .raw j, .raw j2 => Json.beq j j2
  | _, _ => false

/-- Python equality on event tuples (time, type, data). -/
def pyEventEq (e e2 : PyEvent) : Bool :=
  decide (e.1 = e2.1) && decide (e.2.1 = e2.2.1) && pyDataEq e.2.2 e2.2.2

/-- Python exceptions raised by the embedded code paths. -/
inductive PyErr where
  | keyError (field : String)
  | attributeError (name : String)
  | typeError
  | valueError
  | osError
deriving DecidableEq, Repr

/-- Python str() of a KeyCode that carries no character: pynput renders it
from the virtual key code as "<vk>". The recorder only ever holds such a
KeyCode with a present vk; a missing vk is rendered as the Python None. -/
def reprCharlessKeyCode (vk : Option Int) : String :=
  match vk with
  | some v => "<" ++ toString v ++ ">"
  | none => "<None>"

/-- Python str() of a non-key payload reaching the serialize_key fallback
(never produced by this recorder; present only to keep the embedding
total, mirroring that serialize_key catches the AttributeError and
stores str of the object). -/
def reprNonKeyData : EvData → String
  | .key _ => ""
  | .pos _ _ => "(pos)"
  | .click _ _ _ _ => "(click)"
  | .scroll _ _ _ _ => "(scroll)"
  | .raw _ => "(raw)"

/-- serialize_key (src/main.py lines 8-15): a key with a non-None char
attribute is stored as a KeyCode-tagged dict with its char; otherwise the
name attribute is stored as a Key-tagged dict; if the object has neither
(AttributeError), the opaque fallback stores str of the object. A Key
enum member has no char attribute and its name attribute is its member
name, so it always takes the Key branch; a KeyCode without char has no
name attribute, so it takes the fallback branch. -/
def serialize_key : EvData → Json
  | .key (.keyCode _ (some ch)) =>
    Json.obj [("vtype", Json.str "KeyCode"), ("char", ch)]
  | .key (.keyCode vk none) =>
    Json.obj [("vtype", Json.str "str"),
              ("value", Json.str (reprCharlessKeyCode vk))]
  | .key (.special n) =>
    Json.obj [("vtype", Json.str "Key"), ("name", Json.str n)]
  | d =>
    Json.obj [("vtype", Json.str "str"), ("value", Json.str (reprNonKeyData d))]

/-- keyboard.KeyCode.from_char: builds a KeyCode with no virtual key code
and the given char. -/
def keyCodeFromChar (v : Json) : PyKey := PyKey.keyCode none (some v)

/-- Python equality of a loaded JSON value against a string literal, as
the vtype comparisons evaluate it: true exactly for the equal string. -/
def Json.eqStr (v : Json) (s : String) : Bool :=
  match v with
  | Json.str a => decide (a = s)
  | _ => false

/-- deserialize_key (src/main.py lines 17-23): a KeyCode-tagged dict is
rebuilt with from_char of its char field (KeyError if absent); a
Key-tagged dict is looked up by name in keyboard.Key (KeyError if the
name field is absent, TypeError if it is not a string, AttributeError if
it is not a recognized member); any other vtype — including the "str"
fallback tag — is rebuilt with from_char of the value field, defaulting
to the empty string when the value field is absent. A non-dict payload
raises a TypeError on the first subscript. -/
def deserialize_key : Json → Except PyErr PyKey
  | Json.obj ds =>
    match getField "vtype" ds with
    | none => Except.error (PyErr.keyError "vtype")
    | some v =>
      if Json.eqStr v "KeyCode" then
        match getField "char" ds with
        | none => Except.error (PyErr.keyError "char")
        | some c => Except.ok (keyCodeFromChar c)
      else if Json.eqStr v "Key" then
        match getField "name" ds with
        | none => Except.error (PyErr.keyError "name")
        | some (Json.str n) =>
          if n ∈ keyNames then Except.ok (PyKey.special n)
          else Except.error (PyErr.attributeError n)
        | some _ => Except.error PyErr.typeError
      else
        Except.ok (keyCodeFromChar ((getField "value" ds).getD (Json.str "")))
  | _ => Except.error PyErr.typeError

/-- serialize_mouse_button (src/main.py lines 25-26): a Button enum
member is stored by its name. -/
def serialize_mouse_button (name : String) : Json := Json.str name

/-- deserialize_mouse_button (src/main.py lines 28-29): getattr on
mouse.Button; AttributeError if the name is not a recognized member,
TypeError if the stored name is not a string. -/
def deserialize_mouse_button : Json → Except PyErr String
  | Json.str n =>
    if n ∈ buttonNames then Except.ok n
    else Except.error (PyErr.attributeError n)
  | _ => Except.error PyErr.typeError

/-- serialize_event (src/main.py lines 31-51): builds the persisted dict
with time, type and a type-dependent data member. Key events always
serialize via serialize_key; mouse events subscript or unpack their
payload tuple, an error for a payload of the wrong shape; an unknown
type stores its payload as-is, an error when the payload is not a JSON
value (json.dump would reject the pynput objects). -/
def serialize_event : PyEvent → Except PyErr Json
  | (t, ty, d) =>
    let base := [("time", Json.num t), ("type", Json.str ty)]
    if ty = "key_press" ∨ ty = "key_release" then
      Except.ok (Json.obj (base ++ [("data", serialize_key d)]))
    else if ty = "mouse_move" then
      match d with
      | .pos x y => Except.ok (Json.obj (base ++ [("data", Json.obj [("x", x), ("y", y)])]))
      | _ => Except.error PyErr.typeError
    else if ty = "mouse_click" then
      match d with
      | .click x y b p =>
        Except.ok (Json.obj (base ++
          [("data", Json.obj [("x", x), ("y", y),
                              ("button", serialize_mouse_button b),
                              ("pressed", p)])]))
      | _ => Except.error PyErr.valueError
    else if ty = "mouse_scroll" then
      match d with
      | .scroll x y dx dy =>
        Except.ok (Json.obj (base ++
          [("data", Json.obj [("x", x), ("y", y), ("dx", dx), ("dy", dy)])]))
      | _ => Except.error PyErr.valueError
    else
      match d with
      | .raw j => Except.ok (Json.obj (base ++ [("data", j)]))
      | _ => Except.error PyErr.typeError

/-- deserialize_event (src/main.py lines 53-68): reads the time, type and
data members (KeyError when one is absent), then rebuilds the payload by
type; key events via deserialize_key, mouse_click via
deserialize_mouse_button (accessed before the coordinates, as in the
source) and the remaining fields (KeyError when absent), and any other
type keeps the raw data value. The recorded times are numbers and the
type tags strings, as this program writes them; other Json values there
are rejected as a type error. -/
def deserialize_event : Json → Except PyErr PyEvent
  | Json.obj fs =>
    match getField "time" fs with
    | none => Except.error (PyErr.keyError "time")
    | some tj =>
      match getField "type" fs with
      | none => Except.error (PyErr.keyError "type")
      | some tyj =>
        match getField "data" fs with
        | none => Except.error (PyErr.keyError "data")
        | some data =>
          match tj, tyj with
          | Json.num t, Json.str ty =>
            if ty = "key_press" ∨ ty = "key_release" then
              match deserialize_key data with
              | Except.error e => Except.error e
              | Except.ok k => Except.ok (t, ty, EvData.key k)
            else if ty = "mouse_move" then
              match data with
              | Json.obj ds =>
                match getField "x" ds with
                | none => Except.error (PyErr.keyError "x")
                | some x =>
                  match getField "y" ds with
                  | none => Except.error (PyErr.keyError "y")
                  | some y => Except.ok (t, ty, EvData.pos x y)
              | _ => Except.error PyErr.typeError
            else if ty = "mouse_click" then
              match data with
              | Json.obj ds =>
                match getField "button" ds with
                | none => Except.error (PyErr.keyError "button")
                | some bj =>
                  match deserialize_mouse_button bj with
                  | Except.error e => Except.error e
                  | Except.ok b =>
                    match getField "x" ds with
                    | none => Except.error (PyErr.keyError "x")
                    | some x =>
                      match getField "y" ds with
                      | none => Except.error (PyErr.keyError "y")
                      | some y =>
                        match getField "pressed" ds with
                        | none => Except.error (PyErr.keyError "pressed")
                        | some p => Except.ok (t, ty, EvData.click x y b p)
              | _ => Except.error PyErr.typeError
            else if ty = "mouse_scroll" then
              match data with
              | Json.obj ds =>
                match getField "x" ds, getField "y" ds,
                      getField "dx" ds, getField "dy" ds with
                | some x, some y, some dx, some dy =>
                  Except.ok (t, ty, EvData.scroll x y dx dy)
                | none, _, _, _ => Except.error (PyErr.keyError "x")
                | some _, none, _, _ => Except.error (PyErr.keyError "y")
                | some _, some _, none, _ => Except.error (PyErr.keyError "dx")
                | some _, some _, some _, none => Except.error (PyErr.keyError "dy")
              | _ => Except.error PyErr.typeError
            else
              Except.ok (t, ty, EvData.raw data)
          | _, _ => Except.error PyErr.typeError
  | _ => Except.error PyErr.typeError

/-- Deserialization of the whole persisted event array, as the list
comprehension in MainWindow.play_macro performs it: the first failing
event aborts the whole load. -/
def deserialize_events : List Json → Except PyErr (List PyEvent)
  | [] => Except.ok []
  | j :: js =>
    match deserialize_event j with
    | Except.error e => Except.error e
    | Except.ok e =>
      match deserialize_events js with
      | Except.error e2 => Except.error e2
      | Except.ok es => Except.ok (e :: es)

/-- OS synthesis calls available on the external pynput controllers.
The pointer repositioning capability (mouse_controller.position) is part
of the controller interface; MacroPlayer.play never invokes it. -/
inductive SynthOp where
  | keyPress (k : PyKey)
  | keyRelease (k : PyKey)
  | buttonPress (name : String)
  | buttonRelease (name : String)
  | scrollBy (dx dy : Json)
  | moveTo (x y : Json)

/-- Observable playback actions: a suspension of a given duration, an
issued OS synthesis call, or a printed per-event error message. -/
inductive PAction where
  | sleep (w : Rat)
  | synth (op : SynthOp)
  | logged (msg : String)

/-- How a playback run ends: all events consumed, the stop flag observed,
or an uncaught Python exception propagating out of play. -/
inductive Outcome where
  | finished
  | cancelled
  | error (e : PyErr)

/-- A playback run: the ordered actions it performed and how it ended. -/
structure PlayResult where
  actions : List PAction
  outcome : Outcome

/-- Python truthiness of a loaded JSON value, as the if pressed test
evaluates it. -/
def truthy : Json → Bool
  | Json.null => false
  | Json.bool b => b
  | Json.num q => decide (q ≠ 0)
  | Json.str s => decide (s ≠ "")
  | Json.obj fs => match fs with | [] => false | _ => true

/-- One dispatch step of MacroPlayer.play (src/main.py lines 155-173) on
an event of a given type: the per-event actions and, when an exception
escapes the loop body, that exception. Key press and key release wrap
the controller call in try/except, so a raising call (a failing
synthesis, or a non-key payload rejected inside the controller) is
logged and the loop continues. Mouse click first unpacks its payload
(ValueError on a wrong shape, uncaught) and the button press or release
call is not wrapped, so a raising call propagates; mouse scroll
likewise. Any other type matches no branch and does nothing. The fails
oracle tells which OS synthesis calls raise. -/
def dispatch (fails : SynthOp → Bool) (ty : String) (d : EvData) :
    List PAction × Option PyErr :=
  if ty = "key_press" then
    match d with
    | .key k =>
      if fails (SynthOp.keyPress k) then ([PAction.logged "Error on key press"], none)
      else ([PAction.synth (SynthOp.keyPress k)], none)
    | _ => ([PAction.logged "Error on key press"], none)
  else if ty = "key_release" then
    match d with
    | .key k =>
      if fails (SynthOp.keyRelease k) then ([PAction.logged "Error on key release"], none)
      else ([PAction.synth (SynthOp.keyRelease k)], none)
    | _ => ([PAction.logged "Error on key release"], none)
  else if ty = "mouse_click" then
    match d with
    | .click _ _ b p =>
      let op := if truthy p then SynthOp.buttonPress b else SynthOp.buttonRelease b
      if fails op then ([], some PyErr.osError) else ([PAction.synth op], none)
    | _ => ([], some PyErr.valueError)
  else if ty = "mouse_scroll" then
    match d with
    | .scroll _ _ dx dy =>
      if fails (SynthOp.scrollBy dx dy) then ([], some PyErr.osError)
      else ([PAction.synth (SynthOp.scrollBy dx dy)], none)
    | _ => ([], some PyErr.valueError)
  else ([], none)

/-- The pre-synthesis suspension of one loop iteration: sleep for
time_to_wait when it is positive, where time_to_wait is the event time
minus the elapsed time. -/
def sleepActs (t clock : Rat) : List PAction :=
  if 0 < t - clock then [PAction.sleep (t - clock)] else []

/-- The elapsed time after the suspension: the event time if a sleep
happened (an ideal sleep of exactly time_to_wait), unchanged otherwise. -/
def clockAfter (t clock : Rat) : Rat :=
  if 0 < t - clock then t else clock

/-- The playback loop of MacroPlayer.play (src/main.py lines 144-173).
Arguments: the remaining events, the iteration index i (selecting the
extra wall-clock lag accrued since the previous time reading), the index
r of the next read of the shared stop flag (the loop reads it once at
the top of each iteration and once more after the wait), and the elapsed
time since start_time. The stop oracle gives the value of the shared
flag at each read; the lag oracle the wall time spent outside sleeping
(loop overhead and synthesis-call duration). -/
def playGo (stop : Nat → Bool) (fails : SynthOp → Bool) (lag : Nat → Rat) :
    List PyEvent → Nat → Nat → Rat → PlayResult
  | [], _, _, _ => { actions := [], outcome := Outcome.finished }
  | (t, ty, d) :: rest, i, r, clock =>
    if stop r then { actions := [], outcome := Outcome.cancelled }
    else
      let clock1 := clock + lag i
      let pre := sleepActs t clock1
      let clock2 := clockAfter t clock1
      if stop (r + 1) then { actions := pre, outcome := Outcome.cancelled }
      else
        match dispatch fails ty d with
        | (acts, some e) => { actions := pre ++ acts, outcome := Outcome.error e }
        | (acts, none) =>
          let next := playGo stop fails lag rest (i + 1) (r + 2) clock2
          { actions := pre ++ acts ++ next.actions, outcome := next.outcome }

/-- MacroPlayer.play on a full event list, starting at elapsed time 0. -/
def play (stop : Nat → Bool) (fails : SynthOp → Bool) (lag : Nat → Rat)
    (events : List PyEvent) : PlayResult :=
  playGo stop fails lag events 0 0 0

/-- A stop flag that is never set. -/
def noStop : Nat → Bool := fun _ => false

/-- A synthesis oracle under which no OS call raises. -/
def noFail : SynthOp → Bool := fun _ => false

/-- A run with no wall-clock overhead between events. -/
def zeroLag : Nat → Rat := fun _ => 0

/-- A stop flag that is requested at read index c and stays set: the
cooperative cancellation flag is written once and only ever observed by
the playback loop. -/
def stopFrom (c : Nat) : Nat → Bool := fun r => decide (c ≤ r)

/-- The synthesis calls issued during a run, in order. -/
def synthOps (acts : List PAction) : List SynthOp :=
  acts.filterMap fun a =>
    match a with
    | PAction.synth op => some op
    | _ => none

/-- Payload well-formedness: the data of each known event type has the
shape the recorder stores for that type; unknown types are
unconstrained. -/
def wfData (ty : String) (d : EvData) : Bool :=
  if ty = "key_press" ∨ ty = "key_release" then
    match d with | .key _ => true | _ => false
  else if ty = "mouse_move" then
    match d with | .pos _ _ => true | _ => false
  else if ty = "mouse_click" then
    match d with | .click _ _ _ _ => true | _ => false
  else if ty = "mouse_scroll" then
    match d with | .scroll _ _ _ _ => true | _ => false
  else true

/-- Payload well-formedness of an event tuple. -/
def wfEvent : PyEvent → Bool
  | (_, ty, d) => wfData ty d

/-- Payload well-formedness of a whole sequence. -/
def allWF (events : List PyEvent) : Bool := events.all wfEvent

/-- Modelled from the spec (section 4.3 Event Playback): the synthesis
calls prescribed for one event — key press and key release invoke OS
key-down and key-up with the decoded key, a click invokes button-down or
button-up per the pressed flag, a scroll invokes OS scroll with the
recorded deltas, and a pointer move or unknown kind synthesizes
nothing. -/
def specSynth (ty : String) (d : EvData) : List PAction :=
  if ty = "key_press" then
    match d with
    | .key k => [PAction.synth (SynthOp.keyPress k)]
    | _ => []
  else if ty = "key_release" then
    match d with
    | .key k => [PAction.synth (SynthOp.keyRelease k)]
    | _ => []
  else if ty = "mouse_click" then
    match d with
    | .click _ _ b p =>
      [PAction.synth (if truthy p then SynthOp.buttonPress b else SynthOp.buttonRelease b)]
    | _ => []
  else if ty = "mouse_scroll" then
    match d with
    | .scroll _ _ dx dy => [PAction.synth (SynthOp.scrollBy dx dy)]
    | _ => []
  else []

/-- Modelled from the spec (section 4.3 Event Playback): replay proceeds
strictly in sequence order; before synthesizing event i it computes
wait = timestamp - elapsed and suspends exactly when wait is positive,
then issues the synthesis calls for that event; no event is skipped. -/
def specReplay (lag : Nat → Rat) : List PyEvent → Nat → Rat → List PAction
  | [], _, _ => []
  | (t, ty, d) :: rest, i, clock =>
    let clock1 := clock + lag i
    sleepActs t clock1 ++ specSynth ty d ++
      specReplay lag rest (i + 1) (clockAfter t clock1)

/-- MainWindow.play_macro (src/main.py lines 350-363 and 384-394): the
persisted event array is deserialized inside try/except; any exception
shows a load-failure dialog and returns before playback starts, so a
failed load performs no playback action at all; a successful load hands
the decoded events to the playback worker. -/
def playMacroFromJson (stop : Nat → Bool) (fails : SynthOp → Bool)
    (lag : Nat → Rat) (js : List Json) : Except PyErr PlayResult :=
  match deserialize_events js with
  | Except.error e => Except.error e
  | Except.ok events => Except.ok (play stop fails lag events)

/-- Raw OS input notifications the external hook can deliver. -/
inductive RawInput where
  | keyDown (k : PyKey)
  | keyUp (k : PyKey)
  | clickAt (x y : Rat) (button : String) (pressed : Bool)
  | scrollAt (x y : Rat) (dx dy : Rat)
  | moveTo (x y : Rat)

/-- The state of a MacroRecorder (src/main.py lines 70-77), together
with counters for its externally observable effects: how many
stop_recording_from_hotkey invocations have been scheduled by the hotkey
handler, how many times the recording flag transitioned from true to
false, and how many times the on_stop callback was scheduled. -/
structure RecorderState where
  events : List PyEvent
  recording : Bool
  start_time : Rat
  hotkey_triggered : Bool
  kb_listener : Bool
  mouse_listener : Bool
  has_on_stop : Bool
  scheduled_stops : Nat
  stop_transitions : Nat
  on_stop_calls : Nat

/-- The designated stop hotkey, keyboard.Key.f12. -/
def stopHotkey : PyKey := PyKey.special "f12"

/-- MacroRecorder.record_event (src/main.py lines 110-114): append a
timestamped event while recording, do nothing otherwise. -/
def record_event (now : Rat) (ty : String) (d : EvData) (s : RecorderState) :
    RecorderState :=
  if s.recording then
    { s with events := s.events ++ [(now - s.start_time, ty, d)] }
  else s

/-- MacroRecorder.on_key_press (src/main.py lines 116-122): a press of
the stop hotkey is never recorded; the first such press schedules
stop_recording_from_hotkey on the UI thread and sets the
hotkey_triggered guard; any other key is recorded as a key_press. -/
def on_key_press (now : Rat) (k : PyKey) (s : RecorderState) : RecorderState :=
  if pyKeyEq k stopHotkey then
    if s.hotkey_triggered then s
    else { s with hotkey_triggered := true, scheduled_stops := s.scheduled_stops + 1 }
  else record_event now "key_press" (EvData.key k) s

/-- MacroRecorder.on_key_release (src/main.py lines 124-127): a release
of the stop hotkey is never recorded; any other key is recorded as a
key_release. -/
def on_key_release (now : Rat) (k : PyKey) (s : RecorderState) : RecorderState :=
  if pyKeyEq k stopHotkey then s
  else record_event now "key_release" (EvData.key k) s

/-- MacroRecorder.on_click (src/main.py lines 129-130). -/
def on_click (now x y : Rat) (button : String) (pressed : Bool)
    (s : RecorderState) : RecorderState :=
  record_event now "mouse_click"
    (EvData.click (Json.num x) (Json.num y) button (Json.bool pressed)) s

/-- MacroRecorder.on_scroll (src/main.py lines 132-133). -/
def on_scroll (now x y dx dy : Rat) (s : RecorderState) : RecorderState :=
  record_event now "mouse_scroll"
    (EvData.scroll (Json.num x) (Json.num y) (Json.num dx) (Json.num dy)) s

/-- MacroRecorder.stop_recording (src/main.py lines 96-104): when not
recording it returns the accumulated events unchanged; otherwise it
clears the recording flag (one stopped transition), stops both
listeners, schedules the on_stop callback when one is set, and returns
the accumulated events. -/
def stop_recording (s : RecorderState) : RecorderState × List PyEvent :=
  if s.recording then
    ({ s with recording := false, kb_listener := false, mouse_listener := false,
              stop_transitions := s.stop_transitions + 1,
              on_stop_calls := s.on_stop_calls + (if s.has_on_stop then 1 else 0) },
     s.events)
  else (s, s.events)

/-- MacroRecorder.stop_recording_from_hotkey (src/main.py lines
106-108): the scheduled hotkey stop, guarded on the recording flag. -/
def stop_recording_from_hotkey (s : RecorderState) : RecorderState :=
  if s.recording then (stop_recording s).1 else s

/-- MacroRecorder.start_recording (src/main.py lines 79-94): the event
list is cleared and the recording flag, start epoch and hotkey guard are
set before either listener is started, so a hook-installation failure
(modelled by the two hook oracles; the keyboard hook is installed first)
propagates to the caller while those mutations remain in place. -/
def start_recording (kbHookOk mouseHookOk : Bool) (now : Rat)
    (s : RecorderState) : RecorderState × Option PyErr :=
  let s1 := { s with events := [], recording := true, start_time := now,
                     hotkey_triggered := false }
  if kbHookOk then
    let s2 := { s1 with kb_listener := true }
    if mouseHookOk then ({ s2 with mouse_listener := true }, none)
    else (s2, some PyErr.osError)
  else (s1, some PyErr.osError)

/-- Delivery of one OS notification to the recorder: keyboard
notifications reach the handlers only while the keyboard listener runs,
click and scroll notifications only while the mouse listener runs, and
pointer-move notifications are never delivered to the recorder because
mouse.Listener is constructed without an on_move handler (src/main.py
lines 89-92). -/
def deliverOS (now : Rat) (raw : RawInput) (s : RecorderState) : RecorderState :=
  match raw with
  | RawInput.keyDown k => if s.kb_listener then on_key_press now k s else s
  | RawInput.keyUp k => if s.kb_listener then on_key_release now k s else s
  | RawInput.clickAt x y b p => if s.mouse_listener then on_click now x y b p s else s
  | RawInput.scrollAt x y dx dy => if s.mouse_listener then on_scroll now x y dx dy s else s
  | RawInput.moveTo _ _ => s

/-- One step of a capture session: an OS notification, the UI stop path
(MainWindow.stop_recording delegating to MacroRecorder.stop_recording,
both guarded on the recording flag), or the firing of a scheduled hotkey
stop. -/
inductive SessionStep where
  | os (now : Rat) (raw : RawInput)
  | uiStop
  | timerFire

/-- Whether a step invokes the capture-stop path. -/
def isStopStep : SessionStep → Bool
  | SessionStep.os _ _ => false
  | SessionStep.uiStop => true
  | SessionStep.timerFire => true

/-- Apply one session step to the recorder state. -/
def stepRun (s : RecorderState) : SessionStep → RecorderState
  | SessionStep.os now raw => deliverOS now raw s
  | SessionStep.uiStop => (stop_recording s).1
  | SessionStep.timerFire => stop_recording_from_hotkey s

/-- Run a capture session: fold the steps over the recorder state. -/
def runSteps (s : RecorderState) : List SessionStep → RecorderState
  | [] => s
  | st :: rest => runSteps (stepRun s st) rest

/-- Whether an event is a press or release of the stop hotkey. -/
def isStopKeyEvent : PyEvent → Bool
  | (_, ty, d) =>
    (decide (ty = "key_press") || decide (ty = "key_release")) &&
      (match d with
       | EvData.key k => pyKeyEq k stopHotkey
       | _ => false)

/-- No recorded event is a press or release of the stop hotkey. -/
def noStopKeyIn (events : List PyEvent) : Bool :=
  events.all fun e => !isStopKeyEvent e

/-- No recorded event is a pointer move. -/
def noMouseMoveIn (events : List PyEvent) : Bool :=
  events.all fun e => !decide (e.2.1 = "mouse_move")

/-- A freshly constructed MacroRecorder (src/main.py lines 71-77), with
an on_stop callback attached as MainWindow.begin_recording does. -/
def initialRecorder : RecorderState :=
  { events := [], recording := false, start_time := 0,
    hotkey_triggered := false, kb_listener := false, mouse_listener := false,
    has_on_stop := true, scheduled_stops := 0, stop_transitions := 0,
    on_stop_calls := 0 }

/-- Serialization of a whole event sequence, as the list comprehension in
MainWindow.save_macro performs it. -/
def serialize_events : List PyEvent → Except PyErr (List Json)
  | [] => Except.ok []
  | e :: es =>
    match serialize_event e with
    | Except.error err => Except.error err
    | Except.ok j =>
      match serialize_events es with
      | Except.error err => Except.error err
      | Except.ok js => Except.ok (j :: js)

/-- Python equality of two event sequences, element by element. -/
def pyEventsEq : List PyEvent → List PyEvent → Bool
  | [], [] => true
  | e :: es, e2 :: es2 => pyEventEq e e2 && pyEventsEq es es2
  | _, _ => false

/-- A key payload that the codec serializes reversibly: a KeyCode that
carries a character (so it avoids the opaque-string fallback), or a
genuine pynput Key enum member. Captured keys are of one of these forms
or a character-less KeyCode. -/
def goodKey : PyKey → Bool
  | PyKey.keyCode _ (some _) => true
  | PyKey.keyCode _ none => false
  | PyKey.special n => decide (n ∈ keyNames)

/-- An event of one of the five supported kinds whose payload is as the
recorder captures it, with its key payload (if any) avoiding the
opaque-string fallback. -/
def roundtripSafe : PyEvent → Bool
  | (_, ty, d) =>
    if ty = "key_press" ∨ ty = "key_release" then
      match d with | EvData.key k => goodKey k | _ => false
    else if ty = "mouse_move" then
      match d with | EvData.pos _ _ => true | _ => false
    else if ty = "mouse_click" then
      match d with | EvData.click _ _ b _ => decide (b ∈ buttonNames) | _ => false
    else if ty = "mouse_scroll" then
      match d with | EvData.scroll _ _ _ _ => true | _ => false
    else false

/-- A persisted event object that is a dict missing one of the three
top-level required fields (time, type, data). -/
def missingRequiredTop : Json → Bool
  | Json.obj fs =>
    (getField "time" fs).isNone || (getField "type" fs).isNone ||
      (getField "data" fs).isNone
  | _ => false

/-- A persisted key event whose symbolic key name is not a recognized
keyboard.Key member. -/
def badKeyName : Json → Bool
  | Json.obj fs =>
    match getField "time" fs, getField "type" fs, getField "data" fs with
    | some (Json.num _), some (Json.str ty), some (Json.obj ds) =>
      (decide (ty = "key_press") || decide (ty = "key_release")) &&
        (match getField "vtype" ds, getField "name" ds with
         | some v, some (Json.str n) => Json.eqStr v "Key" && !decide (n ∈ keyNames)
         | _, _ => false)
    | _, _, _ => false
  | _ => false

/-- A persisted mouse click event whose button name is not a recognized
mouse.Button member. -/
def badButtonName : Json → Bool
  | Json.obj fs =>
    match getField "time" fs, getField "type" fs, getField "data" fs with
    | some (Json.num _), some (Json.str ty), some (Json.obj ds) =>
      decide (ty = "mouse_click") &&
        (match getField "button" ds with
         | some (Json.str n) => !decide (n ∈ buttonNames)
         | _ => false)
    | _, _, _ => false
  | _ => false

/-- The event type tags this program recognizes. -/
def recognizedTypes : List String :=
  ["key_press", "key_release", "mouse_move", "mouse_click", "mouse_scroll"]

/-- No action of a run is a pointer-move synthesis call. -/
def noMoveSynth (acts : List PAction) : Bool :=
  acts.all fun a =>
    match a with
    | PAction.synth (SynthOp.moveTo _ _) => false
    | _ => true

/-- A captured key-press event whose key is a character-less KeyCode
(virtual key code 255), as media or dead keys deliver on some
platforms. -/
def charlessKeyEvent : PyEvent :=
  (0, "key_press", EvData.key (PyKey.keyCode (some 255) none))

/-- What the codec gives back for charlessKeyEvent: the key rebuilt by
from_char of the fallback string. -/
def charlessKeyDecoded : PyEvent :=
  (0, "key_press", EvData.key (PyKey.keyCode none (some (Json.str "<255>"))))

/-- A recorded sequence whose first event is a mouse click followed by a
key press. -/
def failingClickSequence : List PyEvent :=
  [(0, "mouse_click", EvData.click (Json.num 1) (Json.num 2) "left" (Json.bool true)),
   (0, "key_press", EvData.key (PyKey.special "shift"))]

/-- A synthesis oracle under which exactly the left-button press
raises. -/
def leftPressFails : SynthOp → Bool
  | SynthOp.buttonPress "left" => true
  | _ => false

/-- The recorder right after MacroRecorder.start_recording succeeded. -/
def recordingSession : RecorderState := (start_recording true true 0 initialRecorder).1

/-- C10: decoding a key payload whose vtype tag is the opaque fallback
"str" never fails: it yields the key code built with from_char of the
stored value field, a missing value field defaulting to the empty
string. Moreover the key so rebuilt from the fallback serialization of a
character-less KeyCode is not Python-equal to the originally captured
key object. -/
theorem c10_str_fallback_decode :
    (∀ ds : List (String × Json), getField "vtype" ds = some (Json.str "str") →
      deserialize_key (Json.obj ds)
        = Except.ok (keyCodeFromChar ((getField "value" ds).getD (Json.str ""))))
    ∧ (∀ vk : Int,
        pyKeyEq (keyCodeFromChar (Json.str (reprCharlessKeyCode (some vk))))
          (PyKey.keyCode (some vk) none) = false) := by
  constructor
  · intro ds h
    simp [deserialize_key, h, Json.eqStr]
  · intro vk
    simp [pyKeyEq, keyCodeFromChar]

/-- C10 witness: the fallback payload with no value field decodes to the
key code of the empty string. -/
theorem c10_str_fallback_decode_witness :
    getField "vtype" [("vtype", Json.str "str")] = some (Json.str "str")
    ∧ deserialize_key (Json.obj [("vtype", Json.str "str")])
        = Except.ok (keyCodeFromChar
            ((getField "value" [("vtype", Json.str "str")]).getD (Json.str ""))) :=
  ⟨rfl, c10_str_fallback_decode.1 [("vtype", Json.str "str")] rfl⟩

/-- C8 counterexample: starting a capture session with a prior recorded
event while the keyboard hook fails to install does surface the failure,
but the partial recorder state the claim says is not retained is in fact
retained: the recording flag is set, the event list cleared and the new
start epoch stored. -/
theorem c8_partial_state_counterexample :
    (start_recording false true 5
        { initialRecorder with
            events := [(1, "key_press", EvData.key (PyKey.special "shift"))] }).2
      = some PyErr.osError
    ∧ (start_recording false true 5
        { initialRecorder with
            events := [(1, "key_press", EvData.key (PyKey.special "shift"))] }).1.recording
      = true
    ∧ (start_recording false true 5
        { initialRecorder with
            events := [(1, "key_press", EvData.key (PyKey.special "shift"))] }).1.events
      = []
    ∧ (start_recording false true 5
        { initialRecorder with
            events := [(1, "key_press", EvData.key (PyKey.special "shift"))] }).1.start_time
      = 5 :=
  ⟨rfl, rfl, rfl, rfl⟩

/-- C8 amended: if installing an OS input hook fails, the failure is
surfaced to the caller, and a listener whose start was not reached stays
uninstalled; but the recorder retains the partial state mutated before
the hook installation: recording flag set, event list cleared, start
epoch and hotkey guard reset (MacroRecorder.start_recording performs
those assignments before starting either listener). -/
theorem c8_hook_failure_amended :
    ∀ (s : RecorderState) (now : Rat) (mouseHookOk : Bool),
      start_recording false mouseHookOk now s
        = ({ s with events := [], recording := true, start_time := now,
                    hotkey_triggered := false }, some PyErr.osError)
      ∧ start_recording true false now s
        = ({ s with events := [], recording := true, start_time := now,
                    hotkey_triggered := false, kb_listener := true },
           some PyErr.osError) := by
  intro s now mouseHookOk
  exact ⟨rfl, rfl⟩

/-- C1 counterexample: a key-press event carrying a character-less
KeyCode is serialized through the opaque-string fallback and decodes to
a different key, so decode(encode(e)) is not Python-equal to e for this
supported-kind event. -/
theorem c1_roundtrip_counterexample :
    serialize_event charlessKeyEvent
      = Except.ok (Json.obj [("time", Json.num 0), ("type", Json.str "key_press"),
          ("data", Json.obj [("vtype", Json.str "str"), ("value", Json.str "<255>")])])
    ∧ deserialize_event (Json.obj [("time", Json.num 0), ("type", Json.str "key_press"),
          ("data", Json.obj [("vtype", Json.str "str"), ("value", Json.str "<255>")])])
      = Except.ok charlessKeyDecoded
    ∧ pyEventEq charlessKeyEvent charlessKeyDecoded = false :=
  ⟨rfl, rfl, rfl⟩

/-- C2 counterexample: when the OS synthesis call of a mouse-click event
raises, the exception is neither caught nor logged and playback does not
continue: the run aborts with the error, performing no action at all,
and the following key event is never synthesized. -/
theorem c2_synthesis_error_counterexample :
    play noStop leftPressFails zeroLag failingClickSequence
      = { actions := [], outcome := Outcome.error PyErr.osError } := by
  simp [play, playGo, sleepActs, clockAfter, dispatch, noStop, zeroLag, truthy,
        failingClickSequence, leftPressFails]

/-- C6 counterexample: with a recording session in progress, a
pointer-move notification delivered by the OS leaves the captured event
list empty — pointer-move events are not captured, because the mouse
listener is constructed without an on_move handler. -/
theorem c6_move_not_captured_counterexample :
    recordingSession.recording = true
    ∧ (runSteps recordingSession [SessionStep.os 5 (RawInput.moveTo 3 4)]).events = [] :=
  ⟨rfl, rfl⟩

/-- With no synthesis failures, the loop body of a well-formed event
issues exactly the synthesis calls the spec prescribes and raises
nothing. -/
theorem dispatch_noFail_wf (ty : String) (d : EvData) (h : wfData ty d = true) :
    dispatch noFail ty d = (specSynth ty d, none) := by
  by_cases h1 : ty = "key_press"
  · subst h1
    simp [wfData] at h
    cases d <;> simp_all [dispatch, specSynth, noFail]
  · by_cases h2 : ty = "key_release"
    · subst h2
      simp [wfData] at h
      cases d <;> simp_all [dispatch, specSynth, noFail]
    · by_cases h3 : ty = "mouse_click"
      · subst h3
        simp [wfData] at h
        cases d <;> simp_all [dispatch, specSynth, noFail]
      · by_cases h4 : ty = "mouse_scroll"
        · subst h4
          simp [wfData] at h
          cases d <;> simp_all [dispatch, specSynth, noFail]
        · simp [dispatch, specSynth, h1, h2, h3, h4]

/-- A playback run with the stop flag never observed set and no failing
synthesis call follows the spec replay exactly. -/
theorem playGo_noStop_spec (lag : Nat → Rat) :
    ∀ (evs : List PyEvent) (i r : Nat) (clock : Rat), allWF evs = true →
      playGo noStop noFail lag evs i r clock
        = { actions := specReplay lag evs i clock, outcome := Outcome.finished } := by
  intro evs
  induction evs with
  | nil => intro i r clock _; simp [playGo, specReplay]
  | cons e rest ih =>
    intro i r clock h
    obtain ⟨t, ty, d⟩ := e
    simp only [allWF, List.all_cons, Bool.and_eq_true, wfEvent] at h
    have hrest : allWF rest = true := h.2
    simp [playGo, noStop, dispatch_noFail_wf ty d h.1, specReplay,
          ih (i + 1) (r + 2) (clockAfter t (clock + lag i)) hrest]

/-- C5: playback visits events strictly in sequence order, computing for
each event wait = timestamp - elapsed, suspending exactly when the wait
is positive and synthesizing immediately otherwise, and no event is
skipped or dropped for being behind schedule: an uncancelled, unfailing
run equals the spec-side replay trace and finishes. -/
theorem c5_in_order_replay :
    ∀ (events : List PyEvent) (lag : Nat → Rat), allWF events = true →
      play noStop noFail lag events
        = { actions := specReplay lag events 0 0, outcome := Outcome.finished } := by
  intro events lag h
  exact playGo_noStop_spec lag events 0 0 0 h

/-- C5 witness: a two-event sequence replays to its full spec trace. -/
theorem c5_in_order_replay_witness :
    allWF [((1 : Rat), "key_press", EvData.key (PyKey.special "shift")),
           ((3 : Rat), "key_release", EvData.key (PyKey.special "shift"))] = true
    ∧ play noStop noFail zeroLag
        [((1 : Rat), "key_press", EvData.key (PyKey.special "shift")),
         ((3 : Rat), "key_release", EvData.key (PyKey.special "shift"))]
        = { actions := specReplay zeroLag
              [((1 : Rat), "key_press", EvData.key (PyKey.special "shift")),
               ((3 : Rat), "key_release", EvData.key (PyKey.special "shift"))] 0 0,
            outcome := Outcome.finished } :=
  ⟨rfl, c5_in_order_replay
    [((1 : Rat), "key_press", EvData.key (PyKey.special "shift")),
     ((3 : Rat), "key_release", EvData.key (PyKey.special "shift"))] zeroLag rfl⟩

/-- C2 amended: an error raised by the OS synthesis call of a key-press
or key-release event is caught and logged and playback continues with
the next event; but an error raised by the OS synthesis call of a
mouse-click or mouse-scroll event is not caught: it aborts the whole
playback run, so the remaining events are never synthesized. -/
theorem c2_synthesis_error_amended :
    ∀ (stop : Nat → Bool) (fails : SynthOp → Bool) (lag : Nat → Rat)
      (t : Rat) (rest : List PyEvent) (i r : Nat) (clock : Rat),
      stop r = false → stop (r + 1) = false →
      (∀ k : PyKey, fails (SynthOp.keyPress k) = true →
        playGo stop fails lag ((t, "key_press", EvData.key k) :: rest) i r clock
          = { actions := sleepActs t (clock + lag i) ++ PAction.logged "Error on key press"
                :: (playGo stop fails lag rest (i + 1) (r + 2)
                      (clockAfter t (clock + lag i))).actions,
              outcome := (playGo stop fails lag rest (i + 1) (r + 2)
                            (clockAfter t (clock + lag i))).outcome })
      ∧ (∀ k : PyKey, fails (SynthOp.keyRelease k) = true →
        playGo stop fails lag ((t, "key_release", EvData.key k) :: rest) i r clock
          = { actions := sleepActs t (clock + lag i) ++ PAction.logged "Error on key release"
                :: (playGo stop fails lag rest (i + 1) (r + 2)
                      (clockAfter t (clock + lag i))).actions,
              outcome := (playGo stop fails lag rest (i + 1) (r + 2)
                            (clockAfter t (clock + lag i))).outcome })
      ∧ (∀ (x y : Json) (b : String) (p : Json),
          fails (if truthy p then SynthOp.buttonPress b else SynthOp.buttonRelease b) = true →
          playGo stop fails lag ((t, "mouse_click", EvData.click x y b p) :: rest) i r clock
            = { actions := sleepActs t (clock + lag i), outcome := Outcome.error PyErr.osError })
      ∧ (∀ (x y dx dy : Json), fails (SynthOp.scrollBy dx dy) = true →
          playGo stop fails lag ((t, "mouse_scroll", EvData.scroll x y dx dy) :: rest) i r clock
            = { actions := sleepActs t (clock + lag i), outcome := Outcome.error PyErr.osError }) := by
  intro stop fails lag t rest i r clock hs0 hs1
  refine ⟨?_, ?_, ?_, ?_⟩
  · intro k hf
    simp [playGo, hs0, hs1, dispatch, hf]
  · intro k hf
    simp [playGo, hs0, hs1, dispatch, hf]
  · intro x y b p hf
    cases htp : truthy p <;> rw [htp] at hf <;> simp at hf <;>
      simp [playGo, hs0, hs1, dispatch, htp, hf]
  · intro x y dx dy hf
    simp [playGo, hs0, hs1, dispatch, hf]

/-- C2 witness: with every synthesis call failing, a key press is logged
and playback continues into the (empty) remainder. -/
theorem c2_synthesis_error_witness :
    noStop 0 = false ∧ noStop (0 + 1) = false
    ∧ (fun _ : SynthOp => true) (SynthOp.keyPress (PyKey.special "shift")) = true
    ∧ playGo noStop (fun _ : SynthOp => true) zeroLag
        [((0 : Rat), "key_press", EvData.key (PyKey.special "shift"))] 0 0 0
        = { actions := sleepActs 0 (0 + zeroLag 0) ++ PAction.logged "Error on key press"
              :: (playGo noStop (fun _ : SynthOp => true) zeroLag [] (0 + 1) (0 + 2)
                    (clockAfter 0 (0 + zeroLag 0))).actions,
            outcome := (playGo noStop (fun _ : SynthOp => true) zeroLag [] (0 + 1) (0 + 2)
                          (clockAfter 0 (0 + zeroLag 0))).outcome } :=
  ⟨rfl, rfl, rfl,
    (c2_synthesis_error_amended noStop (fun _ : SynthOp => true) zeroLag 0 [] 0 0 0 rfl rfl).1
      (PyKey.special "shift") rfl⟩

/-- C9: a persisted event object whose type tag is none of the
recognized kinds decodes without error to an event keeping the raw data
value, and playback passes over an event of such a type without issuing
any synthesis call and without error, continuing with the next event. -/
theorem c9_unknown_type_safe :
    ∀ ty : String, ty ∉ recognizedTypes →
      (∀ (t : Rat) (data : Json) (fs : List (String × Json)),
        getField "time" fs = some (Json.num t) →
        getField "type" fs = some (Json.str ty) →
        getField "data" fs = some data →
        deserialize_event (Json.obj fs) = Except.ok (t, ty, EvData.raw data))
      ∧ (∀ (t : Rat) (d : EvData) (rest : List PyEvent) (stop : Nat → Bool)
           (fails : SynthOp → Bool) (lag : Nat → Rat) (i r : Nat) (clock : Rat),
          stop r = false → stop (r + 1) = false →
          playGo stop fails lag ((t, ty, d) :: rest) i r clock
            = { actions := sleepActs t (clock + lag i)
                  ++ (playGo stop fails lag rest (i + 1) (r + 2)
                        (clockAfter t (clock + lag i))).actions,
                outcome := (playGo stop fails lag rest (i + 1) (r + 2)
                              (clockAfter t (clock + lag i))).outcome }) := by
  intro ty hmem
  simp [recognizedTypes] at hmem
  obtain ⟨h1, h2, h3, h4, h5⟩ := hmem
  constructor
  · intro t data fs htime htype hdata
    simp [deserialize_event, htime, htype, hdata, h1, h2, h3, h4, h5]
  · intro t d rest stop fails lag i r clock hs0 hs1
    simp [playGo, hs0, hs1, dispatch, h1, h2, h3, h4, h5]

/-- C9 witness: an event object with the unrecognized type tag
future_kind decodes to a raw event, and playback passes over such an
event, continuing with the remainder. -/
theorem c9_unknown_type_safe_witness :
    "future_kind" ∉ recognizedTypes
    ∧ deserialize_event (Json.obj [("time", Json.num 2), ("type", Json.str "future_kind"),
        ("data", Json.obj [])])
      = Except.ok (2, "future_kind", EvData.raw (Json.obj []))
    ∧ playGo noStop noFail zeroLag [((2 : Rat), "future_kind", EvData.raw (Json.obj []))] 0 0 0
        = { actions := sleepActs 2 (0 + zeroLag 0)
              ++ (playGo noStop noFail zeroLag [] (0 + 1) (0 + 2)
                    (clockAfter 2 (0 + zeroLag 0))).actions,
            outcome := (playGo noStop noFail zeroLag [] (0 + 1) (0 + 2)
                          (clockAfter 2 (0 + zeroLag 0))).outcome } :=
  ⟨by decide,
   (c9_unknown_type_safe "future_kind" (by decide)).1 2 (Json.obj [])
     [("time", Json.num 2), ("type", Json.str "future_kind"), ("data", Json.obj [])]
     rfl rfl rfl,
   (c9_unknown_type_safe "future_kind" (by decide)).2 2 (EvData.raw (Json.obj []))
     [] noStop noFail zeroLag 0 0 0 rfl rfl⟩

/-- A value that compares Python-equal to a string literal is that
string. -/
theorem eqStr_imp {v : Json} {s : String} (h : Json.eqStr v s = true) :
    v = Json.str s := by
  cases v <;> simp_all [Json.eqStr]

/-- An event object missing a required field, or carrying an
unrecognized symbolic key or button name, fails to deserialize. -/
theorem deserialize_event_error_of_flag :
    ∀ j : Json, (missingRequiredTop j || badKeyName j || badButtonName j) = true →
      ∃ e, deserialize_event j = Except.error e := by
  intro j h
  cases j with
  | null => simp [missingRequiredTop, badKeyName, badButtonName] at h
  | bool b => simp [missingRequiredTop, badKeyName, badButtonName] at h
  | num q => simp [missingRequiredTop, badKeyName, badButtonName] at h
  | str s => simp [missingRequiredTop, badKeyName, badButtonName] at h
  | obj fs =>
    rcases htime : getField "time" fs with _ | tj
    · exact ⟨PyErr.keyError "time", by simp [deserialize_event, htime]⟩
    rcases htype : getField "type" fs with _ | tyj
    · exact ⟨PyErr.keyError "type", by simp [deserialize_event, htime, htype]⟩
    rcases hdata : getField "data" fs with _ | data
    · exact ⟨PyErr.keyError "data", by simp [deserialize_event, htime, htype, hdata]⟩
    simp only [missingRequiredTop, badKeyName, badButtonName, htime, htype, hdata,
               Option.isNone_some, Bool.or_self, Bool.false_or] at h
    cases tj with
    | null => simp at h
    | bool b => simp at h
    | str s => simp at h
    | obj gs => simp at h
    | num t =>
      cases tyj with
      | null => simp at h
      | bool b => simp at h
      | num q => simp at h
      | obj gs => simp at h
      | str ty =>
        cases data with
        | null => simp at h
        | bool b => simp at h
        | num q => simp at h
        | str s => simp at h
        | obj ds =>
          rw [Bool.or_eq_true] at h
          rcases h with hkey | hbtn
          · rw [Bool.and_eq_true] at hkey
            obtain ⟨hty, hmatch⟩ := hkey
            rw [Bool.or_eq_true, decide_eq_true_eq, decide_eq_true_eq] at hty
            rcases hv : getField "vtype" ds with _ | v
            · rw [hv] at hmatch; simp at hmatch
            rcases hn : getField "name" ds with _ | nj
            · rw [hv, hn] at hmatch; simp at hmatch
            rw [hv, hn] at hmatch
            cases nj with
            | null => simp at hmatch
            | bool b => simp at hmatch
            | num q => simp at hmatch
            | obj gs => simp at hmatch
            | str n =>
              rw [Bool.and_eq_true] at hmatch
              obtain ⟨hvk, hnm⟩ := hmatch
              have hveq : v = Json.str "Key" := eqStr_imp hvk
              subst hveq
              simp only [Bool.not_eq_eq_eq_not, Bool.not_true, decide_eq_false_iff_not] at hnm
              refine ⟨PyErr.attributeError n, ?_⟩
              simp only [deserialize_event, htime, htype, hdata]
              rw [if_pos hty]
              simp [deserialize_key, hv, hn, Json.eqStr, hnm]
          · rw [Bool.and_eq_true] at hbtn
            obtain ⟨hty, hmatch⟩ := hbtn
            rw [decide_eq_true_eq] at hty
            subst hty
            rcases hb : getField "button" ds with _ | bj
            · rw [hb] at hmatch; simp at hmatch
            rw [hb] at hmatch
            cases bj with
            | null => simp at hmatch
            | bool b => simp at hmatch
            | num q => simp at hmatch
            | obj gs => simp at hmatch
            | str n =>
              simp only [Bool.not_eq_eq_eq_not, Bool.not_true, decide_eq_false_iff_not] at hmatch
              refine ⟨PyErr.attributeError n, ?_⟩
              simp [deserialize_event, htime, htype, hdata, deserialize_mouse_button, hb, hmatch]

/-- A failing element makes the whole event-array deserialization
fail. -/
theorem deserialize_events_error :
    ∀ (js : List Json) (j : Json), j ∈ js →
      (∃ e, deserialize_event j = Except.error e) →
      ∃ e2, deserialize_events js = Except.error e2 := by
  intro js
  induction js with
  | nil => intro j hmem _; simp at hmem
  | cons a rest ih =>
    intro j hmem hj
    obtain ⟨e, he⟩ := hj
    rcases List.mem_cons.mp hmem with rfl | hmem2
    · exact ⟨e, by simp [deserialize_events, he]⟩
    · cases ha : deserialize_event a with
      | error ea => exact ⟨ea, by simp [deserialize_events, ha]⟩
      | ok va =>
        obtain ⟨e2, he2⟩ := ih j hmem2 ⟨e, he⟩
        exact ⟨e2, by simp [deserialize_events, ha, he2]⟩

/-- C3: loading a persisted Macro in which any event object is missing a
required field, or carries a symbolic key or button name that no
recognized key or button bears, fails with the load error surfaced to
the caller, and no playback takes place: play_macro returns before any
event of the Macro is synthesized. -/
theorem c3_malformed_macro :
    ∀ (js : List Json) (j : Json), j ∈ js →
      (missingRequiredTop j || badKeyName j || badButtonName j) = true →
      ∀ (stop : Nat → Bool) (fails : SynthOp → Bool) (lag : Nat → Rat),
        ∃ e, playMacroFromJson stop fails lag js = Except.error e := by
  intro js j hmem hflag stop fails lag
  obtain ⟨e2, he2⟩ :=
    deserialize_events_error js j hmem (deserialize_event_error_of_flag j hflag)
  exact ⟨e2, by simp [playMacroFromJson, he2]⟩

/-- C3 witness: a one-event file whose event lacks the type field does
not play. -/
theorem c3_malformed_macro_witness :
    (Json.obj [("time", Json.num 0), ("data", Json.obj [])])
      ∈ [Json.obj [("time", Json.num 0), ("data", Json.obj [])]]
    ∧ (missingRequiredTop (Json.obj [("time", Json.num 0), ("data", Json.obj [])])
        || badKeyName (Json.obj [("time", Json.num 0), ("data", Json.obj [])])
        || badButtonName (Json.obj [("time", Json.num 0), ("data", Json.obj [])])) = true
    ∧ ∃ e, playMacroFromJson noStop noFail zeroLag
        [Json.obj [("time", Json.num 0), ("data", Json.obj [])]] = Except.error e :=
  ⟨List.mem_singleton.mpr rfl, rfl,
   c3_malformed_macro [Json.obj [("time", Json.num 0), ("data", Json.obj [])]]
     (Json.obj [("time", Json.num 0), ("data", Json.obj [])])
     (List.mem_singleton.mpr rfl) rfl noStop noFail zeroLag⟩

/-- Synthesis calls distribute over action concatenation. -/
theorem synthOps_append (a b : List PAction) :
    synthOps (a ++ b) = synthOps a ++ synthOps b := by
  simp [synthOps]

/-- A suspension contributes no synthesis call. -/
theorem synthOps_sleepActs (t c : Rat) : synthOps (sleepActs t c) = [] := by
  unfold sleepActs
  split <;> simp [synthOps]

/-- An empty run has no synthesis call. -/
theorem synthOps_nil : synthOps [] = [] := rfl

/-- A stop flag set at the read boundary between event n and event n+1
(both reads of iteration n+1 observe it) cancels the run right there:
the run performs exactly the actions of the first n events. -/
theorem playGo_stopFrom_even (lag : Nat → Rat) :
    ∀ (evs : List PyEvent) (n i r : Nat) (clock : Rat),
      allWF evs = true → n < evs.length →
      playGo (stopFrom (2 * n + r)) noFail lag evs i r clock
        = { actions := (playGo noStop noFail lag (evs.take n) i r clock).actions,
            outcome := Outcome.cancelled } := by
  intro evs
  induction evs with
  | nil => intro n i r clock _ hlen; simp at hlen
  | cons e rest ih =>
    intro n i r clock hwf hlen
    obtain ⟨t, ty, d⟩ := e
    simp only [allWF, List.all_cons, Bool.and_eq_true, wfEvent] at hwf
    cases n with
    | zero =>
      simp [playGo, stopFrom]
    | succ m =>
      have hlt : m < rest.length := by simp at hlen; omega
      have harg : 2 * (m + 1) + r = 2 * m + (r + 2) := by omega
      rw [harg]
      have hs0 : stopFrom (2 * m + (r + 2)) r = false := by
        simp [stopFrom]; omega
      have hs1 : stopFrom (2 * m + (r + 2)) (r + 1) = false := by
        simp [stopFrom]; omega
      simp [playGo, hs0, hs1, noStop, dispatch_noFail_wf ty d hwf.1,
            ih m (i + 1) (r + 2) (clockAfter t (clock + lag i))
              (by simp [allWF, hwf.2]) hlt]

/-- A stop flag set during the wait of event n+1 (only the read after
the wait and before the synthesis call observes it) still cancels before
that synthesis: the run issues exactly the synthesis calls of the first
n events. -/
theorem playGo_stopFrom_odd (lag : Nat → Rat) :
    ∀ (evs : List PyEvent) (n i r : Nat) (clock : Rat),
      allWF evs = true → n < evs.length →
      synthOps (playGo (stopFrom (2 * n + 1 + r)) noFail lag evs i r clock).actions
        = synthOps (playGo noStop noFail lag (evs.take n) i r clock).actions
      ∧ (playGo (stopFrom (2 * n + 1 + r)) noFail lag evs i r clock).outcome
        = Outcome.cancelled := by
  intro evs
  induction evs with
  | nil => intro n i r clock _ hlen; simp at hlen
  | cons e rest ih =>
    intro n i r clock hwf hlen
    obtain ⟨t, ty, d⟩ := e
    simp only [allWF, List.all_cons, Bool.and_eq_true, wfEvent] at hwf
    cases n with
    | zero =>
      have hs0 : stopFrom (2 * 0 + 1 + r) r = false := by simp [stopFrom]
      have hs1 : stopFrom (2 * 0 + 1 + r) (r + 1) = true := by
        simp [stopFrom]; omega
      simp [playGo, hs0, hs1, synthOps_sleepActs, synthOps_nil]
    | succ m =>
      have hlt : m < rest.length := by simp at hlen; omega
      have harg : 2 * (m + 1) + 1 + r = 2 * m + 1 + (r + 2) := by omega
      rw [harg]
      have hs0 : stopFrom (2 * m + 1 + (r + 2)) r = false := by
        simp [stopFrom]; omega
      have hs1 : stopFrom (2 * m + 1 + (r + 2)) (r + 1) = false := by
        simp [stopFrom]; omega
      obtain ⟨iha, iho⟩ :=
        ih m (i + 1) (r + 2) (clockAfter t (clock + lag i)) (by simp [allWF, hwf.2]) hlt
      simp [playGo, hs0, hs1, noStop, dispatch_noFail_wf ty d hwf.1,
            synthOps_append, iha, iho]

/-- C4: when cancellation is requested between the synthesis of event n
and the synthesis of event n+1, events n+1 onward are never synthesized
while events 1 through n were. The flag is read once at the top of each
iteration and once after the wait, before the synthesis call: a flag set
at the boundary (both reads of iteration n+1 see it) makes the run
perform exactly the actions of the first n events and end cancelled, and
a flag set during the wait of event n+1 (seen by the read after the wait
and before the synthesis call) still yields exactly the synthesis calls
of the first n events and a cancelled run. -/
theorem c4_cancellation_boundary :
    ∀ (events : List PyEvent) (n : Nat) (lag : Nat → Rat),
      allWF events = true → n < events.length →
      (play (stopFrom (2 * n)) noFail lag events
         = { actions := (play noStop noFail lag (events.take n)).actions,
             outcome := Outcome.cancelled })
      ∧ synthOps (play (stopFrom (2 * n + 1)) noFail lag events).actions
          = synthOps (play noStop noFail lag (events.take n)).actions
      ∧ (play (stopFrom (2 * n + 1)) noFail lag events).outcome = Outcome.cancelled := by
  intro events n lag hwf hlen
  have heven := playGo_stopFrom_even lag events n 0 0 0 hwf hlen
  have hodd := playGo_stopFrom_odd lag events n 0 0 0 hwf hlen
  rw [Nat.add_zero] at heven hodd
  exact ⟨heven, hodd.1, hodd.2⟩

/-- C4 witness: with the flag raised between the two events, only the
first is synthesized and the run ends cancelled. -/
theorem c4_cancellation_boundary_witness :
    allWF [((1 : Rat), "key_press", EvData.key (PyKey.special "shift")),
           ((3 : Rat), "key_release", EvData.key (PyKey.special "shift"))] = true
    ∧ 1 < [((1 : Rat), "key_press", EvData.key (PyKey.special "shift")),
           ((3 : Rat), "key_release", EvData.key (PyKey.special "shift"))].length
    ∧ ((play (stopFrom (2 * 1)) noFail zeroLag
          [((1 : Rat), "key_press", EvData.key (PyKey.special "shift")),
           ((3 : Rat), "key_release", EvData.key (PyKey.special "shift"))]
        = { actions := (play noStop noFail zeroLag
              ([((1 : Rat), "key_press", EvData.key (PyKey.special "shift")),
                ((3 : Rat), "key_release", EvData.key (PyKey.special "shift"))].take 1)).actions,
            outcome := Outcome.cancelled })
      ∧ synthOps (play (stopFrom (2 * 1 + 1)) noFail zeroLag
            [((1 : Rat), "key_press", EvData.key (PyKey.special "shift")),
             ((3 : Rat), "key_release", EvData.key (PyKey.special "shift"))]).actions
          = synthOps (play noStop noFail zeroLag
              ([((1 : Rat), "key_press", EvData.key (PyKey.special "shift")),
                ((3 : Rat), "key_release", EvData.key (PyKey.special "shift"))].take 1)).actions
      ∧ (play (stopFrom (2 * 1 + 1)) noFail zeroLag
            [((1 : Rat), "key_press", EvData.key (PyKey.special "shift")),
             ((3 : Rat), "key_release", EvData.key (PyKey.special "shift"))]).outcome
          = Outcome.cancelled) :=
  ⟨rfl, by decide,
   c4_cancellation_boundary
     [((1 : Rat), "key_press", EvData.key (PyKey.special "shift")),
      ((3 : Rat), "key_release", EvData.key (PyKey.special "shift"))] 1 zeroLag rfl (by decide)⟩

/-- Absence of pointer-move synthesis distributes over action
concatenation. -/
theorem noMoveSynth_append (a b : List PAction) :
    noMoveSynth (a ++ b) = (noMoveSynth a && noMoveSynth b) := by
  simp [noMoveSynth, List.all_append]

/-- A suspension is not a pointer-move synthesis. -/
theorem noMoveSynth_sleepActs (t c : Rat) : noMoveSynth (sleepActs t c) = true := by
  unfold sleepActs
  split <;> simp [noMoveSynth]

/-- No dispatch branch of the play loop issues a pointer-move synthesis
call. -/
theorem dispatch_no_move (fails : SynthOp → Bool) (ty : String) (d : EvData) :
    noMoveSynth (dispatch fails ty d).1 = true := by
  unfold dispatch
  split_ifs <;> cases d <;> simp [noMoveSynth] <;> split_ifs <;> simp

/-- No playback run ever issues a pointer-move synthesis call. -/
theorem playGo_no_move (stop : Nat → Bool) (fails : SynthOp → Bool) (lag : Nat → Rat) :
    ∀ (evs : List PyEvent) (i r : Nat) (clock : Rat),
      noMoveSynth (playGo stop fails lag evs i r clock).actions = true := by
  intro evs
  induction evs with
  | nil => intro i r clock; simp [playGo, noMoveSynth]
  | cons e rest ih =>
    intro i r clock
    obtain ⟨t, ty, d⟩ := e
    by_cases hs0 : stop r
    · simp [playGo, hs0, noMoveSynth]
    · by_cases hs1 : stop (r + 1)
      · simp [playGo, hs0, hs1, noMoveSynth_sleepActs]
      · have hda := dispatch_no_move fails ty d
        cases hd : dispatch fails ty d with
        | mk acts err =>
          rw [hd] at hda
          cases err with
          | some e2 =>
            simp [playGo, hs0, hs1, hd, noMoveSynth_append, noMoveSynth_sleepActs, hda]
          | none =>
            simp [playGo, hs0, hs1, hd, noMoveSynth_append, noMoveSynth_sleepActs, hda,
                  ih (i + 1) (r + 2) (clockAfter t (clock + lag i))]

/-- A recorded event of a type other than mouse_move keeps the captured
list free of pointer-move events. -/
theorem record_event_no_move (now : Rat) (ty : String) (d : EvData) (s : RecorderState)
    (hty : ty ≠ "mouse_move") (h : noMouseMoveIn s.events = true) :
    noMouseMoveIn (record_event now ty d s).events = true := by
  unfold record_event
  split
  · simp only [noMouseMoveIn, List.all_append] at h ⊢
    simp [h, hty]
  · exact h

/-- Every capture-session step keeps the captured list free of
pointer-move events. -/
theorem stepRun_no_move (s : RecorderState) (st : SessionStep)
    (h : noMouseMoveIn s.events = true) :
    noMouseMoveIn (stepRun s st).events = true := by
  cases st with
  | os now raw =>
    cases raw with
    | keyDown k =>
      simp only [stepRun, deliverOS]
      split
      · unfold on_key_press
        split
        · split <;> exact h
        · exact record_event_no_move now "key_press" (EvData.key k) s (by simp) h
      · exact h
    | keyUp k =>
      simp only [stepRun, deliverOS]
      split
      · unfold on_key_release
        split
        · exact h
        · exact record_event_no_move now "key_release" (EvData.key k) s (by simp) h
      · exact h
    | clickAt x y b p =>
      simp only [stepRun, deliverOS]
      split
      · exact record_event_no_move now "mouse_click" _ s (by simp) h
      · exact h
    | scrollAt x y dx dy =>
      simp only [stepRun, deliverOS]
      split
      · exact record_event_no_move now "mouse_scroll" _ s (by simp) h
      · exact h
    | moveTo x y => exact h
  | uiStop =>
    simp only [stepRun, stop_recording]
    split <;> exact h
  | timerFire =>
    simp only [stepRun, stop_recording_from_hotkey, stop_recording]
    split
    · split <;> exact h
    · exact h

/-- C6 amended: pointer-move events are never captured during recording
(the mouse listener is constructed without an on_move handler, so a
session whose captured list is free of pointer-move events remains so
under every sequence of OS notifications and stop invocations), and
playback never issues a pointer-move synthesis call for any event
sequence, any stop schedule and any synthesis oracle, even when the
sequence contains pointer-move events. -/
theorem c6_no_move_amended :
    (∀ (s : RecorderState) (steps : List SessionStep),
      noMouseMoveIn s.events = true → noMouseMoveIn (runSteps s steps).events = true)
    ∧ (∀ (stop : Nat → Bool) (fails : SynthOp → Bool) (lag : Nat → Rat)
         (events : List PyEvent),
        noMoveSynth (play stop fails lag events).actions = true) := by
  constructor
  · intro s steps
    induction steps generalizing s with
    | nil => intro h; simpa [runSteps] using h
    | cons st rest ih =>
      intro h
      simpa [runSteps] using ih (stepRun s st) (stepRun_no_move s st h)
  · intro stop fails lag events
    exact playGo_no_move stop fails lag events 0 0 0

/-- C6 witness: a fresh session stays move-free across a move
notification, and a run over a stored pointer-move event issues no
pointer-move synthesis. -/
theorem c6_no_move_amended_witness :
    noMouseMoveIn recordingSession.events = true
    ∧ noMouseMoveIn
        (runSteps recordingSession [SessionStep.os 5 (RawInput.moveTo 3 4)]).events = true
    ∧ noMoveSynth (play noStop noFail zeroLag
        [((0 : Rat), "mouse_move", EvData.pos (Json.num 1) (Json.num 2))]).actions = true :=
  ⟨rfl,
   c6_no_move_amended.1 recordingSession [SessionStep.os 5 (RawInput.moveTo 3 4)] rfl,
   c6_no_move_amended.2 noStop noFail zeroLag
     [((0 : Rat), "mouse_move", EvData.pos (Json.num 1) (Json.num 2))]⟩

/-- No session step changes whether an on_stop callback is attached. -/
theorem stepRun_has_on_stop (s : RecorderState) (st : SessionStep) :
    (stepRun s st).has_on_stop = s.has_on_stop := by
  cases st with
  | os now raw =>
    cases raw <;>
      simp only [stepRun, deliverOS, on_key_press, on_key_release, on_click,
                 on_scroll, record_event] <;>
      split_ifs <;> rfl
  | uiStop =>
    simp only [stepRun, stop_recording]
    split_ifs <;> rfl
  | timerFire =>
    simp only [stepRun, stop_recording_from_hotkey, stop_recording]
    split_ifs <;> rfl

/-- OS notifications never change the recording flag or the stop
counters. -/
theorem stepRun_os_counters (now : Rat) (raw : RawInput) (s : RecorderState) :
    (stepRun s (SessionStep.os now raw)).recording = s.recording
    ∧ (stepRun s (SessionStep.os now raw)).stop_transitions = s.stop_transitions
    ∧ (stepRun s (SessionStep.os now raw)).on_stop_calls = s.on_stop_calls := by
  cases raw <;>
    simp only [stepRun, deliverOS, on_key_press, on_key_release, on_click,
               on_scroll, record_event] <;>
    (try split_ifs) <;> simp

/-- While the recorder is stopped, no step records an event, restarts
recording or moves the stop counters. -/
theorem stepRun_idle (s : RecorderState) (st : SessionStep)
    (h : s.recording = false) :
    (stepRun s st).events = s.events ∧ (stepRun s st).recording = false
    ∧ (stepRun s st).stop_transitions = s.stop_transitions
    ∧ (stepRun s st).on_stop_calls = s.on_stop_calls := by
  cases st with
  | os now raw =>
    cases raw <;>
      simp only [stepRun, deliverOS, on_key_press, on_key_release, on_click,
                 on_scroll, record_event, h] <;>
      (try split_ifs) <;> simp_all
  | uiStop =>
    simp [stepRun, stop_recording, h]
  | timerFire =>
    simp [stepRun, stop_recording_from_hotkey, h]

/-- A stop invocation while recording freezes the captured list, clears
the recording flag, counts one stopped transition and schedules the
on_stop callback exactly when one is attached. -/
theorem stepRun_stopping (s : RecorderState) (st : SessionStep)
    (hst : isStopStep st = true) (hrec : s.recording = true) :
    (stepRun s st).events = s.events ∧ (stepRun s st).recording = false
    ∧ (stepRun s st).stop_transitions = s.stop_transitions + 1
    ∧ (stepRun s st).on_stop_calls
        = s.on_stop_calls + (if s.has_on_stop then 1 else 0) := by
  cases st with
  | os now raw => simp [isStopStep] at hst
  | uiStop => simp [stepRun, stop_recording, hrec]
  | timerFire => simp [stepRun, stop_recording_from_hotkey, stop_recording, hrec]

/-- Recording an event that is not a stop-key event keeps the captured
list free of stop-key events. -/
theorem record_event_noStopKey (now : Rat) (ty : String) (d : EvData)
    (s : RecorderState)
    (hok : isStopKeyEvent (now - s.start_time, ty, d) = false)
    (h : noStopKeyIn s.events = true) :
    noStopKeyIn (record_event now ty d s).events = true := by
  unfold record_event
  split
  · simp only [noStopKeyIn, List.all_append] at h ⊢
    simp [h, hok]
  · exact h

/-- Every capture-session step keeps the captured list free of stop-key
events: the stop hotkey is filtered out before recording. -/
theorem stepRun_noStopKey (s : RecorderState) (st : SessionStep)
    (h : noStopKeyIn s.events = true) :
    noStopKeyIn (stepRun s st).events = true := by
  cases st with
  | os now raw =>
    cases raw with
    | keyDown k =>
      simp only [stepRun, deliverOS]
      split
      · unfold on_key_press
        split
        · split <;> exact h
        · refine record_event_noStopKey now "key_press" (EvData.key k) s ?_ h
          simp_all [isStopKeyEvent]
      · exact h
    | keyUp k =>
      simp only [stepRun, deliverOS]
      split
      · unfold on_key_release
        split
        · exact h
        · refine record_event_noStopKey now "key_release" (EvData.key k) s ?_ h
          simp_all [isStopKeyEvent]
      · exact h
    | clickAt x y b p =>
      simp only [stepRun, deliverOS]
      split
      · exact record_event_noStopKey now "mouse_click" _ s (by simp [isStopKeyEvent]) h
      · exact h
    | scrollAt x y dx dy =>
      simp only [stepRun, deliverOS]
      split
      · exact record_event_noStopKey now "mouse_scroll" _ s (by simp [isStopKeyEvent]) h
      · exact h
    | moveTo x y => exact h
  | uiStop =>
    simp only [stepRun, stop_recording]
    split <;> exact h
  | timerFire =>
    simp only [stepRun, stop_recording_from_hotkey, stop_recording]
    split
    · split <;> exact h
    · exact h

/-- C7: a press or release of the designated stop key is never appended
to the captured sequence, and the stop path is idempotent: over any
session run, the number of stopped transitions grows by exactly one when
the session was recording and at least one stop invocation occurs (and
by nothing otherwise), the on_stop callback delivering the finalized
Macro is scheduled exactly once under the same condition, and once the
recorder is stopped the captured list never changes again. -/
theorem c7_stop_key_idempotent :
    ∀ (s : RecorderState) (steps : List SessionStep),
      noStopKeyIn s.events = true →
      noStopKeyIn (runSteps s steps).events = true
      ∧ (runSteps s steps).stop_transitions
          = s.stop_transitions + (if s.recording && steps.any isStopStep then 1 else 0)
      ∧ (runSteps s steps).on_stop_calls
          = s.on_stop_calls
            + (if s.has_on_stop && (s.recording && steps.any isStopStep) then 1 else 0)
      ∧ (s.recording = false → (runSteps s steps).events = s.events) := by
  intro s steps
  induction steps generalizing s with
  | nil =>
    intro h
    simp [runSteps, h]
  | cons st rest ih =>
    intro h
    have hnext := stepRun_noStopKey s st h
    have hhos := stepRun_has_on_stop s st
    obtain ⟨ih1, ih2, ih3, ih4⟩ := ih (stepRun s st) hnext
    by_cases hst : isStopStep st = true
    · by_cases hrec : s.recording = true
      · obtain ⟨hev, hrec2, htr, hoc⟩ := stepRun_stopping s st hst hrec
        refine ⟨by simpa [runSteps] using ih1, ?_, ?_, ?_⟩
        · simp only [runSteps]
          rw [ih2, htr, hrec2]
          simp [hst, hrec]
        · simp only [runSteps]
          rw [ih3, hoc, hrec2, hhos]
          cases hh : s.has_on_stop <;> simp [hst, hrec]
        · intro hrecF
          rw [hrec] at hrecF
          cases hrecF
      · have hrecF : s.recording = false := by
          cases hr : s.recording
          · rfl
          · exact absurd hr hrec
        obtain ⟨hev, hrec2, htr, hoc⟩ := stepRun_idle s st hrecF
        refine ⟨by simpa [runSteps] using ih1, ?_, ?_, ?_⟩
        · simp only [runSteps]
          rw [ih2, htr, hrec2]
          simp [hrecF]
        · simp only [runSteps]
          rw [ih3, hoc, hrec2, hhos]
          simp [hrecF]
        · intro _
          simp only [runSteps]
          rw [ih4 hrec2, hev]
    · have hstF : isStopStep st = false := by
        cases hs2 : isStopStep st
        · rfl
        · exact absurd hs2 hst
      cases st with
      | uiStop => simp [isStopStep] at hstF
      | timerFire => simp [isStopStep] at hstF
      | os now raw =>
        obtain ⟨hrec2, htr, hoc⟩ := stepRun_os_counters now raw s
        refine ⟨by simpa [runSteps] using ih1, ?_, ?_, ?_⟩
        · simp only [runSteps]
          rw [ih2, htr, hrec2]
          simp [hstF, isStopStep]
        · simp only [runSteps]
          rw [ih3, hoc, hrec2, hhos]
          simp [hstF, isStopStep]
        · intro hrecF
          obtain ⟨hev, hrec3, _, _⟩ :=
            stepRun_idle s (SessionStep.os now raw) hrecF
          simp only [runSteps]
          rw [ih4 hrec3, hev]

/-- C7 witness: a started session with one ordinary key, one stop-key
press and three stop invocations records no stop-key event and stops
exactly once. -/
theorem c7_stop_key_idempotent_witness :
    noStopKeyIn recordingSession.events = true
    ∧ noStopKeyIn (runSteps recordingSession
        [SessionStep.os 5 (RawInput.keyDown (PyKey.special "shift")),
         SessionStep.os 6 (RawInput.keyDown (PyKey.special "f12")),
         SessionStep.timerFire, SessionStep.timerFire, SessionStep.uiStop]).events = true
    ∧ (runSteps recordingSession
        [SessionStep.os 5 (RawInput.keyDown (PyKey.special "shift")),
         SessionStep.os 6 (RawInput.keyDown (PyKey.special "f12")),
         SessionStep.timerFire, SessionStep.timerFire, SessionStep.uiStop]).stop_transitions
        = recordingSession.stop_transitions
          + (if recordingSession.recording
                && [SessionStep.os 5 (RawInput.keyDown (PyKey.special "shift")),
                    SessionStep.os 6 (RawInput.keyDown (PyKey.special "f12")),
                    SessionStep.timerFire, SessionStep.timerFire,
                    SessionStep.uiStop].any isStopStep then 1 else 0)
    ∧ (runSteps recordingSession
        [SessionStep.os 5 (RawInput.keyDown (PyKey.special "shift")),
         SessionStep.os 6 (RawInput.keyDown (PyKey.special "f12")),
         SessionStep.timerFire, SessionStep.timerFire, SessionStep.uiStop]).on_stop_calls
        = recordingSession.on_stop_calls
          + (if recordingSession.has_on_stop
                && (recordingSession.recording
                    && [SessionStep.os 5 (RawInput.keyDown (PyKey.special "shift")),
                        SessionStep.os 6 (RawInput.keyDown (PyKey.special "f12")),
                        SessionStep.timerFire, SessionStep.timerFire,
                        SessionStep.uiStop].any isStopStep) then 1 else 0)
    ∧ (recordingSession.recording = false →
        (runSteps recordingSession
          [SessionStep.os 5 (RawInput.keyDown (PyKey.special "shift")),
           SessionStep.os 6 (RawInput.keyDown (PyKey.special "f12")),
           SessionStep.timerFire, SessionStep.timerFire,
           SessionStep.uiStop]).events = recordingSession.events) :=
  ⟨rfl,
   c7_stop_key_idempotent recordingSession
     [SessionStep.os 5 (RawInput.keyDown (PyKey.special "shift")),
      SessionStep.os 6 (RawInput.keyDown (PyKey.special "f12")),
      SessionStep.timerFire, SessionStep.timerFire, SessionStep.uiStop] rfl⟩

/-- One serialize-then-deserialize round trip for an event of a
supported kind whose payload avoids the opaque key fallback: the decoded
event is Python-equal to the original. -/
theorem roundtrip_event :
    ∀ e : PyEvent, roundtripSafe e = true →
      ∃ j e2, serialize_event e = Except.ok j ∧ deserialize_event j = Except.ok e2
        ∧ pyEventEq e e2 = true := by
  intro e h
  obtain ⟨t, ty, d⟩ := e
  simp only [roundtripSafe] at h
  by_cases h1 : ty = "key_press" ∨ ty = "key_release"
  · rw [if_pos h1] at h
    cases d with
    | pos x y => simp at h
    | click x y b p => simp at h
    | scroll x y dx dy => simp at h
    | raw j => simp at h
    | key k =>
      cases k with
      | keyCode vk ch =>
        cases ch with
        | none => simp [goodKey] at h
        | some c =>
          rcases h1 with rfl | rfl
          · refine ⟨Json.obj [("time", Json.num t), ("type", Json.str "key_press"),
                      ("data", Json.obj [("vtype", Json.str "KeyCode"), ("char", c)])],
                    (t, "key_press", EvData.key (PyKey.keyCode none (some c))), ?_, ?_, ?_⟩
            · simp [serialize_event, serialize_key]
            · simp [deserialize_event, getField, deserialize_key, Json.eqStr, keyCodeFromChar]
            · simp [pyEventEq, pyDataEq, pyKeyEq, Json.beq_refl]
          · refine ⟨Json.obj [("time", Json.num t), ("type", Json.str "key_release"),
                      ("data", Json.obj [("vtype", Json.str "KeyCode"), ("char", c)])],
                    (t, "key_release", EvData.key (PyKey.keyCode none (some c))), ?_, ?_, ?_⟩
            · simp [serialize_event, serialize_key]
            · simp [deserialize_event, getField, deserialize_key, Json.eqStr, keyCodeFromChar]
            · simp [pyEventEq, pyDataEq, pyKeyEq, Json.beq_refl]
      | special n =>
        simp only [goodKey, decide_eq_true_eq] at h
        rcases h1 with rfl | rfl
        · refine ⟨Json.obj [("time", Json.num t), ("type", Json.str "key_press"),
                    ("data", Json.obj [("vtype", Json.str "Key"), ("name", Json.str n)])],
                  (t, "key_press", EvData.key (PyKey.special n)), ?_, ?_, ?_⟩
          · simp [serialize_event, serialize_key]
          · simp [deserialize_event, getField, deserialize_key, Json.eqStr, h]
          · simp [pyEventEq, pyDataEq, pyKeyEq]
        · refine ⟨Json.obj [("time", Json.num t), ("type", Json.str "key_release"),
                    ("data", Json.obj [("vtype", Json.str "Key"), ("name", Json.str n)])],
                  (t, "key_release", EvData.key (PyKey.special n)), ?_, ?_, ?_⟩
          · simp [serialize_event, serialize_key]
          · simp [deserialize_event, getField, deserialize_key, Json.eqStr, h]
          · simp [pyEventEq, pyDataEq, pyKeyEq]
  · rw [if_neg h1] at h
    by_cases h2 : ty = "mouse_move"
    · subst h2
      rw [if_pos rfl] at h
      cases d with
      | key k => simp at h
      | click x y b p => simp at h
      | scroll x y dx dy => simp at h
      | raw j => simp at h
      | pos x y =>
        refine ⟨Json.obj [("time", Json.num t), ("type", Json.str "mouse_move"),
                  ("data", Json.obj [("x", x), ("y", y)])],
                (t, "mouse_move", EvData.pos x y), ?_, ?_, ?_⟩
        · simp [serialize_event]
        · simp [deserialize_event, getField]
        · simp [pyEventEq, pyDataEq, Json.beq_refl]
    · by_cases h3 : ty = "mouse_click"
      · subst h3
        rw [if_neg (by simp), if_pos rfl] at h
        cases d with
        | key k => simp at h
        | pos x y => simp at h
        | scroll x y dx dy => simp at h
        | raw j => simp at h
        | click x y b p =>
          simp only [decide_eq_true_eq] at h
          refine ⟨Json.obj [("time", Json.num t), ("type", Json.str "mouse_click"),
                    ("data", Json.obj [("x", x), ("y", y),
                      ("button", serialize_mouse_button b), ("pressed", p)])],
                  (t, "mouse_click", EvData.click x y b p), ?_, ?_, ?_⟩
          · simp [serialize_event]
          · simp [deserialize_event, getField, serialize_mouse_button,
                  deserialize_mouse_button, h]
          · simp [pyEventEq, pyDataEq, Json.beq_refl]
      · by_cases h4 : ty = "mouse_scroll"
        · subst h4
          rw [if_neg (by simp), if_neg (by simp), if_pos rfl] at h
          cases d with
          | key k => simp at h
          | pos x y => simp at h
          | click x y b p => simp at h
          | raw j => simp at h
          | scroll x y dx dy =>
            refine ⟨Json.obj [("time", Json.num t), ("type", Json.str "mouse_scroll"),
                      ("data", Json.obj [("x", x), ("y", y), ("dx", dx), ("dy", dy)])],
                    (t, "mouse_scroll", EvData.scroll x y dx dy), ?_, ?_, ?_⟩
            · simp [serialize_event]
            · simp [deserialize_event, getField]
            · simp [pyEventEq, pyDataEq, Json.beq_refl]
        · rw [if_neg h2, if_neg h3, if_neg h4] at h
          cases h

/-- Serialize-then-deserialize round trip for a whole sequence of
supported-kind events whose payloads avoid the opaque key fallback. -/
theorem roundtrip_events :
    ∀ evs : List PyEvent, evs.all roundtripSafe = true →
      ∃ js evs2, serialize_events evs = Except.ok js
        ∧ deserialize_events js = Except.ok evs2 ∧ pyEventsEq evs evs2 = true := by
  intro evs
  induction evs with
  | nil => intro _; exact ⟨[], [], rfl, rfl, rfl⟩
  | cons e rest ih =>
    intro h
    simp only [List.all_cons, Bool.and_eq_true] at h
    obtain ⟨j, e2, hs, hd, heq⟩ := roundtrip_event e h.1
    obtain ⟨js, evs2, hs2, hd2, heq2⟩ := ih h.2
    refine ⟨j :: js, e2 :: evs2, ?_, ?_, ?_⟩
    · simp [serialize_events, hs, hs2]
    · simp [deserialize_events, hd, hd2]
    · simp [pyEventsEq, heq, heq2]

/-- C1 amended: decode(encode(e)) is Python-equal to e for every event
of the five supported kinds whose key payload (if any) is a
character-carrying KeyCode or a genuine Key member — that is, whose key
serialization avoids the opaque-string fallback — and whose click
button is a genuine Button member; and hence decode(encode(s)) == s for
every sequence of such events. For a key event carrying a
character-less KeyCode the law fails. -/
theorem c1_roundtrip_amended :
    (∀ e : PyEvent, roundtripSafe e = true →
      ∃ j e2, serialize_event e = Except.ok j ∧ deserialize_event j = Except.ok e2
        ∧ pyEventEq e e2 = true)
    ∧ (∀ evs : List PyEvent, evs.all roundtripSafe = true →
      ∃ js evs2, serialize_events evs = Except.ok js
        ∧ deserialize_events js = Except.ok evs2 ∧ pyEventsEq evs evs2 = true) :=
  ⟨roundtrip_event, roundtrip_events⟩

/-- C1 witness: a character key event round trips. -/
theorem c1_roundtrip_witness :
    roundtripSafe ((0 : Rat), "key_press",
        EvData.key (PyKey.keyCode (some 65) (some (Json.str "a")))) = true
    ∧ ∃ j e2, serialize_event ((0 : Rat), "key_press",
          EvData.key (PyKey.keyCode (some 65) (some (Json.str "a")))) = Except.ok j
        ∧ deserialize_event j = Except.ok e2
        ∧ pyEventEq ((0 : Rat), "key_press",
            EvData.key (PyKey.keyCode (some 65) (some (Json.str "a")))) e2 = true :=
  ⟨rfl, c1_roundtrip_amended.1
    ((0 : Rat), "key_press", EvData.key (PyKey.keyCode (some 65) (some (Json.str "a")))) rfl⟩

end MacroProgram
